import Mathlib

/-!
Verification of the structural validation engine of HYDROLIB-core
(`hydrolib/core/io/ini/util.py`): a shallow embedding of the pydantic
validators in that module, together with theorems settling the frozen
claims about them.

Python values appearing in a parsed attribute mapping are embedded as
`Val` (scalars and flat lists of scalars, matching the data model's
`sequence-of(scalar)` field types); an attribute mapping is an
association list keyed by lower-cased field names, where an absent key
models both a missing key and a key holding Python `None` (every access
in the source goes through `dict.get`, which conflates the two).
Fallible validators return `Except String Values`; an `Except.error`
models a raised `ValueError` carrying the violation message.
-/

namespace Hydrolib

/-- A scalar attribute value: a string, an integer (also standing in for
floats such as a chainage, whose numeric value the validators never
inspect), or a boolean. -/
inductive Scalar where
  | str : String → Scalar
  | int : Int → Scalar
  | bool : Bool → Scalar
deriving DecidableEq, Repr

/-- An attribute value: a scalar or a flat list of scalars. -/
inductive Val where
  | scalar : Scalar → Val
  | list : List Scalar → Val
deriving DecidableEq, Repr

/-- An attribute mapping: association list from lower-cased field name to
value.  `pyGet` returning `none` models Python `dict.get` returning
`None` (key absent or key present with value `None`). -/
abbrev Values := List (String × Val)

/-- Python `values.get(key)`. -/
def pyGet (values : Values) (key : String) : Option Val :=
  (values.find? (fun p => p.fst == key)).map (fun p => p.snd)

/-- Python `values[key] = v`: replace the value of an existing key,
otherwise append the new binding. -/
def pySet (values : Values) (key : String) (v : Val) : Values :=
  if values.any (fun p => p.fst == key) then
    values.map (fun p => if p.fst == key then (key, v) else p)
  else values ++ [(key, v)]

/-- Python `str.lower()` (ASCII model, as exercised by the field names in
this module). -/
def pyLower (s : String) : String := String.mk (s.data.map Char.toLower)

/-- Python's character-level whitespace test used by `str.isspace()` and
`str.strip()` (ASCII whitespace: space, TAB, LF, CR, VT, FF). -/
def pyIsSpace (c : Char) : Bool :=
  c == '\x20' || c == '\x09' || c == '\x0a' || c == '\x0d' || c == '\x0b' || c == '\x0c'

/-- Python `str.isspace()`: non-empty and all characters whitespace. -/
def pyIsSpaceStr (s : String) : Bool := (s != "") && s.data.all pyIsSpace

/-- Modelled from the spec: `str_is_empty_or_none` from
`hydrolib.core.utils` (imported by the source but not under `src/`);
per the spec's presence semantics a string-identifier field counts as
given only when it holds a non-empty, non-whitespace string.  Python:
`str_field is None or str_field == "" or str_field.isspace()`.
A non-string value is treated as not-empty (Python would raise
`AttributeError` on `.isspace()`; never exercised by the validators). -/
def str_is_empty_or_none : Option Val → Bool
  | none => true
  | some (Val.scalar (Scalar.str s)) => s == "" || pyIsSpaceStr s
  | some _ => false

/-- Modelled from the spec: `to_list` from `hydrolib.core.utils` (not
under `src/`); the spec's scalar-to-sequence promotion: wrap a
non-sequence value as a single-element sequence. -/
def to_list : Val → List Scalar
  | Val.scalar x => [x]
  | Val.list l => l

/-- Python `str()` of a scalar. -/
def Scalar.pyStr : Scalar → String
  | Scalar.str s => s
  | Scalar.int n => toString n
  | Scalar.bool b => if b then "True" else "False"

/-- Python `repr()` of a scalar (strings quoted), as used when a list is
rendered. -/
def Scalar.pyRepr : Scalar → String
  | Scalar.str s => "\x27" ++ s ++ "\x27"
  | x => x.pyStr

/-- Python `str()` of a value, used when a value is interpolated into an
error message. -/
def Val.pyStr : Val → String
  | Val.scalar x => x.pyStr
  | Val.list l => "[" ++ String.intercalate ", " (l.map Scalar.pyRepr) ++ "]"

/-! ## The delimiter-split normalizer (`split` inside
`get_split_string_on_delimiter_validator`) -/

/-- Python `str.strip()` on a character list: drop ASCII whitespace from
both ends. -/
def pyStrip (l : List Char) : List Char :=
  ((l.dropWhile pyIsSpace).reverse.dropWhile pyIsSpace).reverse

/-- Find the leftmost occurrence of `sep` in a character list, returning
the part before it and the part after it. -/
def findSep (sep : List Char) : List Char → Option (List Char × List Char)
  | [] => none
  | c :: cs =>
    if sep.isPrefixOf (c :: cs) then some ([], (c :: cs).drop sep.length)
    else
      match findSep sep cs with
      | some (pre, post) => some (c :: pre, post)
      | none => none

/-- Fuelled worker for `pySplit`: repeatedly split at the leftmost
occurrence of `sep`.  For a non-empty `sep`, fuel `s.length + 1` always
suffices (each found occurrence consumes at least one character). -/
def pySplitAux (sep : List Char) : Nat → List Char → List (List Char)
  | 0, s => [s]
  | fuel + 1, s =>
    match findSep sep s with
    | some (pre, post) => pre :: pySplitAux sep fuel post
    | none => [s]

/-- Python `str.split(sep)` for a non-empty separator, on character
lists.  (Python raises `ValueError` for an empty separator; for
`sep = []` this function returns an arbitrary result and no theorem
relies on it.) -/
def pySplit (sep s : List Char) : List (List Char) :=
  pySplitAux sep (s.length + 1) s

/-- Python `sep.join(strings)`. -/
def pyJoin (sep : String) (l : List String) : String :=
  String.mk (List.intercalate sep.data (l.map String.data))

/-- The `split` normalizer from `get_split_string_on_delimiter_validator`:
a string value is split on the resolved delimiter, the non-empty
segments are kept, and each kept segment is stripped; any other value
passes through unchanged.  Python:
`if isinstance(v, str): v = v.split(delim); v = [item.strip() for item in v if item != ""]`. -/
def split (delimiter : String) : Val → Val
  | Val.scalar (Scalar.str s) =>
    Val.list (((pySplit delimiter.data s.data).filter (fun i => i != [])).map
      (fun i => Scalar.str (String.mk (pyStrip i))))
  | v => v

/-! ## The enum normalizer (`get_enum` inside `get_enum_validator`) -/

/-- The `get_enum` normalizer: the closed enumeration is embedded as the
list `E` of the canonical member strings of a string-valued `Enum`, in
declaration order; the first member whose lower-cased form matches the
lower-cased input is returned, otherwise the input passes through.
Python: `for entry in enum: if entry.lower() == v.lower(): return entry`. -/
def get_enum (E : List String) (v : String) : String :=
  match E.find? (fun entry => pyLower entry == pyLower v) with
  | some entry => entry
  | none => v

/-- `get_enum` applied to one scalar: only strings are matched (a
non-string raw value would raise `AttributeError` in Python and is never
produced by the tokenizer for an enum field). -/
def get_enum_scalar (E : List String) : Scalar → Scalar
  | Scalar.str s => Scalar.str (get_enum E s)
  | x => x

/-- Modelled from the spec: the validator is registered with pydantic's
`each_item=True` (source line 53), whose implementation lives outside
`src/`; per the spec, "if input is itself a sequence, each element is
matched independently". -/
def get_enum_each_item (E : List String) : Val → Val
  | Val.list l => Val.list (l.map (get_enum_scalar E))
  | Val.scalar x => Val.scalar (get_enum_scalar E x)

/-! ## The list-length rule (`make_list_length_root_validator`) -/

/-- The configuration of one list-length rule instance: the keyword
arguments of `make_list_length_root_validator`. -/
structure ListLengthConfig where
  field_names : List String
  length_name : String
  length_incr : Int := 0
  list_required_with_length : Bool := false
  min_length : Int := 0

/-- `_get_incorrect_length_validation_message`, already formatted with the
field name and the length name. -/
def incorrect_length_message (cfg : ListLengthConfig) (field_name : String) : String :=
  let incrstring := if cfg.length_incr != 0 then " + " ++ toString cfg.length_incr else ""
  let minstring :=
    if cfg.min_length > 0 then " (and at least " ++ toString cfg.min_length ++ ")" else ""
  "Number of values for " ++ field_name ++ " should be equal to the " ++ cfg.length_name
    ++ " value" ++ incrstring ++ minstring ++ "."

/-- The message raised when a required list is missing. -/
def missing_list_message (cfg : ListLengthConfig) (field_name : String) : String :=
  "List " ++ field_name ++ " cannot be missing if " ++ cfg.length_name ++ " is given."

/-- Python `len()` on a value: defined for lists and strings, undefined
(`TypeError`) otherwise. -/
def pyLen : Val → Option Nat
  | Val.list l => some l.length
  | Val.scalar (Scalar.str s) => some s.length
  | _ => none

/-- `_validate_listfield_length`: a present field must be a list of
exactly the required length; an absent field is an error only when
`list_required_with_length` is set and the required length is positive. -/
def _validate_listfield_length (cfg : ListLengthConfig) (field_name : String)
    (field : Option Val) (requiredlength : Int) : Except String Unit :=
  match field with
  | some v =>
    match pyLen v with
    | some len =>
      if (len : Int) != requiredlength then
        Except.error (incorrect_length_message cfg field_name)
      else Except.ok ()
    | none => Except.error "TypeError: object has no len()"
  | none =>
    if cfg.list_required_with_length && requiredlength > 0 then
      Except.error (missing_list_message cfg field_name)
    else Except.ok ()

/-- The `for field_name in field_names` loop of `validate_correct_length`:
stops at the first raised error.  (The source also writes the unchanged
field value back into the mapping, which is the identity under the
`dict.get` semantics used here.) -/
def check_listfields (cfg : ListLengthConfig) (values : Values) (requiredlength : Int) :
    List String → Except String Unit
  | [] => Except.ok ()
  | f :: rest =>
    match _validate_listfield_length cfg f (pyGet values f) requiredlength with
    | Except.error e => Except.error e
    | Except.ok _ => check_listfields cfg values requiredlength rest

/-- `validate_correct_length`: a no-op when the length field is absent;
otherwise every named list field is checked against
`max(length + length_incr, min_length)`.  A non-integer length value is
a `TypeError` in Python (`length + length_incr`); no claim exercises it
(nor the `bool` case, where Python would treat the value as 0 or 1). -/
def validate_correct_length (cfg : ListLengthConfig) (values : Values) :
    Except String Values :=
  match pyGet values cfg.length_name with
  | none => Except.ok values
  | some lengthVal =>
    match lengthVal with
    | Val.scalar (Scalar.int n) =>
      match check_listfields cfg values (max (n + cfg.length_incr) cfg.min_length)
          cfg.field_names with
      | Except.error e => Except.error e
      | Except.ok _ => Except.ok values
    | _ => Except.error "TypeError: unsupported operand type(s)"

/-! ## Conditional forbidden / required / guard rules

The source passes an arbitrary binary `comparison_func` (default
`operator.eq`); it is embedded as a Boolean function together with the
string `cmp_str` standing for `operator_str(comparison_func)` (a pure
rendering function from `hydrolib.core.utils`, not under `src/`). -/

/-- The message raised by `validate_forbidden_fields`. -/
def forbidden_message (field conditional_field_name cmp_str : String)
    (conditional_value : Val) : String :=
  field ++ " is forbidden when " ++ conditional_field_name ++ " " ++ cmp_str ++ " "
    ++ conditional_value.pyStr

/-- The message raised by `validate_required_fields`. -/
def required_message (field conditional_field_name cmp_str : String)
    (conditional_value : Val) : String :=
  field ++ " should be provided when " ++ conditional_field_name ++ " " ++ cmp_str ++ " "
    ++ conditional_value.pyStr

/-- `validate_forbidden_fields` from `get_forbidden_fields_validator`:
when the condition field is present and the comparison holds, the first
present target field (Python raises at the first hit) is a violation. -/
def validate_forbidden_fields (field_names : List String)
    (conditional_field_name : String) (conditional_value : Val)
    (comparison_func : Val → Val → Bool) (cmp_str : String) (values : Values) :
    Except String Values :=
  match pyGet values conditional_field_name with
  | none => Except.ok values
  | some val =>
    if comparison_func val conditional_value then
      match field_names.find? (fun f => (pyGet values f).isSome) with
      | some f =>
        Except.error (forbidden_message f conditional_field_name cmp_str conditional_value)
      | none => Except.ok values
    else Except.ok values

/-- `validate_required_fields` from `get_required_fields_validator`:
when the condition field is present and the comparison holds, the first
absent target field is a violation. -/
def validate_required_fields (field_names : List String)
    (conditional_field_name : String) (conditional_value : Val)
    (comparison_func : Val → Val → Bool) (cmp_str : String) (values : Values) :
    Except String Values :=
  match pyGet values conditional_field_name with
  | none => Except.ok values
  | some val =>
    if comparison_func val conditional_value then
      match field_names.find? (fun f => (pyGet values f).isNone) with
      | some f =>
        Except.error (required_message f conditional_field_name cmp_str conditional_value)
      | none => Except.ok values
    else Except.ok values

/-- `validate_conditionally` from `get_conditional_root_validator`.  The
wrapped Python root validator is a function on the shared mutable
mapping; it is embedded as returning, on success, the pair of the
post-call state of the mapping it was handed (its in-place mutations)
and its Python return value.  The source calls
`root_vldt.__func__(cls, values)` and discards the result, then
`return values`: the mutated mapping is returned, the wrapped
validator's return value is dropped, and a raised error propagates. -/
def validate_conditionally (root_vldt : Values → Except String (Values × Values))
    (conditional_field_name : String) (conditional_value : Val)
    (comparison_func : Val → Val → Bool) (values : Values) : Except String Values :=
  match pyGet values conditional_field_name with
  | some val =>
    if comparison_func val conditional_value then
      match root_vldt values with
      | Except.ok (mutated, _returned) => Except.ok mutated
      | Except.error e => Except.error e
    else Except.ok values
  | none => Except.ok values

/-! ## The location-specification rule
(`get_location_specification_rootvalidator`) -/

/-- `LocationValidationConfiguration` (source lines 255-271). -/
structure LocationValidationConfiguration where
  validate_node : Bool := true
  validate_coordinates : Bool := true
  validate_branch : Bool := true
  validate_num_coordinates : Bool := true
  minimum_num_coordinates : Int := 0

/-- `LocationValidationFieldNames` (source lines 274-296). -/
structure LocationValidationFieldNames where
  node_id : String := "nodeId"
  branch_id : String := "branchId"
  chainage : String := "chainage"
  x_coordinates : String := "xCoordinates"
  y_coordinates : String := "yCoordinates"
  num_coordinates : String := "numCoordinates"
  location_type : String := "locationType"

/-- The default field names. -/
def defaultLocFields : LocationValidationFieldNames := {}

/-- Modelled from the spec: the external `LocationType.oned` member (from
`hydrolib.core.io.common.models`, not under `src/`), a string-valued
enum implied by the node and branch forms; the spec's node/branch forms
"imply a 1D tag", and the member is rendered by its value `"1d"` both in
the stored tag and in messages. -/
def LocationType_oned : String := "1d"

/-- The six `has_*` presence flags computed at the top of
`validate_location_specification` (source lines 342-347): the string
identifiers via `str_is_empty_or_none`, the rest via `is not None`. -/
structure LocPresence where
  node : Bool
  branch : Bool
  chainage : Bool
  x : Bool
  y : Bool
  num : Bool

/-- Compute the presence flags of a mapping. -/
def loc_presence (fields : LocationValidationFieldNames) (values : Values) : LocPresence where
  node := !(str_is_empty_or_none (pyGet values (pyLower fields.node_id)))
  branch := !(str_is_empty_or_none (pyGet values (pyLower fields.branch_id)))
  chainage := (pyGet values (pyLower fields.chainage)).isSome
  x := (pyGet values (pyLower fields.x_coordinates)).isSome
  y := (pyGet values (pyLower fields.y_coordinates)).isSome
  num := (pyGet values (pyLower fields.num_coordinates)).isSome

/-- `is_valid_node_specification` (source lines 392-400). -/
def is_valid_node_specification (p : LocPresence) : Bool :=
  p.node && !(p.branch || p.chainage || p.x || p.y || p.num)

/-- `is_valid_branch_specification` (source lines 402-409). -/
def is_valid_branch_specification (p : LocPresence) : Bool :=
  p.branch && p.chainage && !(p.node || p.x || p.y || p.num)

/-- `is_valid_coordinates_specification` (source lines 411-415). -/
def is_valid_coordinates_specification (p : LocPresence) : Bool :=
  p.x && p.y && !(p.node || p.branch || p.chainage || p.num)

/-- `is_valid_coordinates_with_num_coordinates_specification`
(source lines 417-424). -/
def is_valid_coordinates_with_num_coordinates_specification (p : LocPresence) : Bool :=
  p.x && p.y && p.num && !(p.node || p.branch || p.chainage)

/-- `get_length` (source lines 350-352): `len(to_list(values[field.lower()]))`.
Only invoked by the source after the field's presence is established;
the `none` branch (Python: `KeyError`) is unreachable at those call
sites. -/
def get_length (values : Values) (field : String) : Nat :=
  match pyGet values (pyLower field) with
  | some v => (to_list v).length
  | none => 0

/-- `validate_location_type` (source lines 354-361): an absent or
empty/whitespace tag is overwritten with the expected type; a present
tag must equal the expected type. -/
def validate_location_type (fields : LocationValidationFieldNames)
    (expected_location_type : String) (values : Values) : Except String Values :=
  let key := pyLower fields.location_type
  if str_is_empty_or_none (pyGet values key) then
    Except.ok (pySet values key (Val.scalar (Scalar.str expected_location_type)))
  else
    match pyGet values key with
    | some v =>
      if v == Val.scalar (Scalar.str expected_location_type) then Except.ok values
      else
        Except.error (fields.location_type ++ " should be " ++ expected_location_type
          ++ " but was " ++ v.pyStr)
    | none => Except.ok values

/-- `validate_minimum_num_coordinates` (source lines 386-390). -/
def validate_minimum_num_coordinates (config : LocationValidationConfiguration)
    (fields : LocationValidationFieldNames) (actual_num : Int) : Except String Unit :=
  if actual_num < config.minimum_num_coordinates then
    Except.error (fields.x_coordinates ++ " and " ++ fields.y_coordinates
      ++ " should have at least " ++ toString config.minimum_num_coordinates
      ++ " coordinate(s)")
  else Except.ok ()

/-- Python `==` between an attribute value and an integer (used by the
chained comparison in `validate_coordinates_with_num_coordinates`;
Python `bool` is a subtype of `int`). -/
def pyEqInt : Val → Int → Bool
  | Val.scalar (Scalar.int n), k => n == k
  | Val.scalar (Scalar.bool b), k => (if b then (1 : Int) else 0) == k
  | _, _ => false

/-- `validate_coordinates` (source lines 375-384): equal x/y lengths,
then the minimum-count check. -/
def validate_coordinates (config : LocationValidationConfiguration)
    (fields : LocationValidationFieldNames) (values : Values) : Except String Values :=
  let len_x := get_length values fields.x_coordinates
  let len_y := get_length values fields.y_coordinates
  if len_x != len_y then
    Except.error (fields.x_coordinates ++ " and " ++ fields.y_coordinates
      ++ " should have an equal amount of coordinates")
  else
    match validate_minimum_num_coordinates config fields (len_x : Int) with
    | Except.error e => Except.error e
    | Except.ok _ => Except.ok values

/-- `validate_coordinates_with_num_coordinates` (source lines 363-373):
the chained Python comparison
`num_coordinates == length_x_coordinates == length_y_coordinates`,
then the minimum-count check on `num_coordinates` (which at that point
equals `len_x`, so the x-length is passed on). -/
def validate_coordinates_with_num_coordinates (config : LocationValidationConfiguration)
    (fields : LocationValidationFieldNames) (values : Values) : Except String Values :=
  let len_x := get_length values fields.x_coordinates
  let len_y := get_length values fields.y_coordinates
  match pyGet values (pyLower fields.num_coordinates) with
  | some num =>
    if pyEqInt num (len_x : Int) && (len_x == len_y) then
      match validate_minimum_num_coordinates config fields (len_x : Int) with
      | Except.error e => Except.error e
      | Except.ok _ => Except.ok values
    else
      Except.error (fields.num_coordinates ++ " should be equal to the amount of "
        ++ fields.x_coordinates ++ " and " ++ fields.y_coordinates)
  | none => Except.error "KeyError"

/-- The `error_parts` list accumulated by `validate_location_specification`
when every enabled form's predicate has failed: one entry per enabled
form, in trial order. -/
def location_error_parts (config : LocationValidationConfiguration)
    (fields : LocationValidationFieldNames) : List String :=
  (if config.validate_node then [fields.node_id] else [])
    ++ (if config.validate_branch then [fields.branch_id ++ " and " ++ fields.chainage]
        else [])
    ++ (if config.validate_coordinates then
          [if config.validate_num_coordinates then
            fields.x_coordinates ++ ", " ++ fields.y_coordinates ++ " and "
              ++ fields.num_coordinates
          else fields.x_coordinates ++ " and " ++ fields.y_coordinates]
        else [])

/-- `validate_location_specification` (source lines 322-462).  The
source tries each enabled form in order and returns from inside the
first block whose exclusivity predicate holds, appending that form's
error part otherwise; the nested conditionals below are that control
flow flattened: a branch is taken iff its form is enabled and its
predicate holds and no earlier enabled form's predicate held, and the
final aggregate error collects exactly the enabled forms' parts. -/
def validate_location_specification (config : LocationValidationConfiguration)
    (fields : LocationValidationFieldNames) (values : Values) : Except String Values :=
  let p := loc_presence fields values
  if config.validate_node && is_valid_node_specification p then
    validate_location_type fields LocationType_oned values
  else if config.validate_branch && is_valid_branch_specification p then
    validate_location_type fields LocationType_oned values
  else if config.validate_coordinates && config.validate_num_coordinates
      && is_valid_coordinates_with_num_coordinates_specification p then
    validate_coordinates_with_num_coordinates config fields values
  else if config.validate_coordinates && !config.validate_num_coordinates
      && is_valid_coordinates_specification p then
    validate_coordinates config fields values
  else
    Except.error (String.intercalate " or " (location_error_parts config fields)
      ++ " should be provided")

/-! ## Theorems -/

instance {ε α : Type _} [DecidableEq ε] [DecidableEq α] : DecidableEq (Except ε α) :=
  fun x y =>
    match x, y with
    | Except.ok a, Except.ok b => decidable_of_iff (a = b) (by simp)
    | Except.error a, Except.error b => decidable_of_iff (a = b) (by simp)
    | Except.ok _, Except.error _ => Decidable.isFalse (by simp)
    | Except.error _, Except.ok _ => Decidable.isFalse (by simp)

/-- The loop of `validate_correct_length` succeeds exactly when every
named field passes its individual length check. -/
theorem check_listfields_ok_iff (cfg : ListLengthConfig) (values : Values)
    (req : Int) (fns : List String) :
    check_listfields cfg values req fns = Except.ok () ↔
      ∀ f ∈ fns, _validate_listfield_length cfg f (pyGet values f) req = Except.ok () := by
  induction fns with
  | nil => simp [check_listfields]
  | cons f rest ih =>
    unfold check_listfields
    cases h : _validate_listfield_length cfg f (pyGet values f) req with
    | error e => simp [h]
    | ok u => cases u; simp [h, ih]

/-- Claim C5: for every list-length configuration and mapping, the rule
is the identity when the count field is absent; otherwise, with required
length `max(count + increment, minimum)`, the whole rule succeeds
exactly when every target passes, a present target passes exactly when
its length equals the required length (otherwise the violation names the
field and the count field, with the increment/minimum annotation), and
an absent target is a violation exactly when the required-even-if-absent
flag is set and the required length is positive. -/
theorem C5_list_length_rule (cfg : ListLengthConfig) (values : Values) :
    (pyGet values cfg.length_name = none →
      validate_correct_length cfg values = Except.ok values)
  ∧ (∀ n : Int, pyGet values cfg.length_name = some (Val.scalar (Scalar.int n)) →
      (validate_correct_length cfg values = Except.ok values ↔
        ∀ f ∈ cfg.field_names,
          _validate_listfield_length cfg f (pyGet values f)
            (max (n + cfg.length_incr) cfg.min_length) = Except.ok ()))
  ∧ (∀ (f : String) (v : Val) (k : Nat) (req : Int), pyLen v = some k →
      ((_validate_listfield_length cfg f (some v) req = Except.ok () ↔ (k : Int) = req)
       ∧ ((k : Int) ≠ req →
          _validate_listfield_length cfg f (some v) req =
            Except.error (incorrect_length_message cfg f))))
  ∧ (∀ (f : String) (req : Int),
      (_validate_listfield_length cfg f none req = Except.ok () ↔
        ¬(cfg.list_required_with_length = true ∧ 0 < req))
      ∧ (cfg.list_required_with_length = true → 0 < req →
          _validate_listfield_length cfg f none req =
            Except.error (missing_list_message cfg f))) := by
  refine ⟨?_, ?_, ?_, ?_⟩
  · intro h
    unfold validate_correct_length
    rw [h]
  · intro n h
    unfold validate_correct_length
    rw [h]
    cases hc : check_listfields cfg values (max (n + cfg.length_incr) cfg.min_length)
        cfg.field_names with
    | error e =>
      simp only [hc]
      constructor
      · intro hfalse; exact absurd hfalse (by simp)
      · intro hall
        exact absurd ((check_listfields_ok_iff cfg values _ _).mpr hall)
          (by simp [hc])
    | ok u =>
      cases u
      simp only [hc]
      constructor
      · intro _; exact (check_listfields_ok_iff cfg values _ _).mp hc
      · intro _; trivial
  · intro f v k req hk
    constructor
    · by_cases h : (k : Int) = req
      · simp [_validate_listfield_length, hk, h]
      · simp [_validate_listfield_length, hk, h]
    · intro h
      simp [_validate_listfield_length, hk, h]
  · intro f req
    constructor
    · by_cases h1 : cfg.list_required_with_length = true
      · by_cases h2 : 0 < req
        · simp [_validate_listfield_length, h1, h2]
        · simp [_validate_listfield_length, h1, h2]
      · rw [Bool.not_eq_true] at h1
        simp [_validate_listfield_length, h1]
    · intro h1 h2
      simp [_validate_listfield_length, h1, h2]

/-- Witness for C5 at a concrete configuration and mapping: count 2 with
increment 1 requires length 3. -/
theorem C5_list_length_rule_witness :
    validate_correct_length
      { field_names := ["xs"], length_name := "n", length_incr := 1,
        list_required_with_length := true, min_length := 0 }
      [("n", Val.scalar (Scalar.int 2)),
       ("xs", Val.list [Scalar.int 0, Scalar.int 1, Scalar.int 2])] =
    Except.ok [("n", Val.scalar (Scalar.int 2)),
       ("xs", Val.list [Scalar.int 0, Scalar.int 1, Scalar.int 2])] :=
  ((C5_list_length_rule _ _).2.1 2 (by decide)).mpr (by decide)

/-- Claim C6: the conditional forbidden and required rules are the
identity when the condition field is absent or the comparison fails;
when it holds, the forbidden rule succeeds exactly when every target is
absent and fails on the first present target (whatever its value), the
required rule succeeds exactly when every target is present and fails on
the first absent target, and each violation message names the target
field, the condition field, the comparison and the condition value. -/
theorem C6_conditional_forbidden_required (fns : List String) (cf : String) (cv : Val)
    (cmp : Val → Val → Bool) (cstr : String) (values : Values) :
    (pyGet values cf = none →
      validate_forbidden_fields fns cf cv cmp cstr values = Except.ok values
      ∧ validate_required_fields fns cf cv cmp cstr values = Except.ok values)
  ∧ (∀ v, pyGet values cf = some v → cmp v cv = false →
      validate_forbidden_fields fns cf cv cmp cstr values = Except.ok values
      ∧ validate_required_fields fns cf cv cmp cstr values = Except.ok values)
  ∧ (∀ v, pyGet values cf = some v → cmp v cv = true →
      (validate_forbidden_fields fns cf cv cmp cstr values = Except.ok values ↔
        ∀ f ∈ fns, pyGet values f = none)
      ∧ (validate_required_fields fns cf cv cmp cstr values = Except.ok values ↔
        ∀ f ∈ fns, pyGet values f ≠ none)
      ∧ (∀ f, fns.find? (fun g => (pyGet values g).isSome) = some f →
          validate_forbidden_fields fns cf cv cmp cstr values =
            Except.error (forbidden_message f cf cstr cv))
      ∧ (∀ f, fns.find? (fun g => (pyGet values g).isNone) = some f →
          validate_required_fields fns cf cv cmp cstr values =
            Except.error (required_message f cf cstr cv))) := by
  refine ⟨?_, ?_, ?_⟩
  · intro h
    unfold validate_forbidden_fields validate_required_fields
    rw [h]
    exact ⟨rfl, rfl⟩
  · intro v hv hcmp
    unfold validate_forbidden_fields validate_required_fields
    rw [hv]
    simp only [hcmp]
    exact ⟨by simp, by simp⟩
  · intro v hv hcmp
    unfold validate_forbidden_fields validate_required_fields
    rw [hv]
    simp only [hcmp, if_true]
    refine ⟨?_, ?_, ?_, ?_⟩
    · cases hf : fns.find? (fun g => (pyGet values g).isSome) with
      | none =>
        simp only [hf]
        constructor
        · intro _ f hfm
          have := List.find?_eq_none.mp hf f hfm
          rw [← Option.not_isSome_iff_eq_none]
          simpa using this
        · intro _; trivial
      | some f =>
        simp only [hf]
        constructor
        · intro hfalse; exact absurd hfalse (by simp)
        · intro hall
          have hmem := List.mem_of_find?_eq_some hf
          have hsome := List.find?_some hf
          rw [hall f hmem] at hsome
          simp at hsome
    · cases hf : fns.find? (fun g => (pyGet values g).isNone) with
      | none =>
        simp only [hf]
        constructor
        · intro _ f hfm
          have := List.find?_eq_none.mp hf f hfm
          simpa [Option.isNone_iff_eq_none] using this
        · intro _; trivial
      | some f =>
        simp only [hf]
        constructor
        · intro hfalse; exact absurd hfalse (by simp)
        · intro hall
          have hmem := List.mem_of_find?_eq_some hf
          have hsome := List.find?_some hf
          rw [Option.isNone_iff_eq_none] at hsome
          exact absurd hsome (hall f hmem)
    · intro f hf
      simp only [hf]
    · intro f hf
      simp only [hf]

/-- Witness for C6 at concrete inputs: with the condition holding, a
present target with a falsy (but non-null) value is forbidden, and a
missing target is required. -/
theorem C6_conditional_forbidden_required_witness :
    validate_forbidden_fields ["a"] "c" (Val.scalar (Scalar.int 1))
      (fun x y => x == y) "is"
      [("c", Val.scalar (Scalar.int 1)), ("a", Val.scalar (Scalar.bool false))] =
      Except.error "a is forbidden when c is 1"
  ∧ validate_required_fields ["b"] "c" (Val.scalar (Scalar.int 1))
      (fun x y => x == y) "is"
      [("c", Val.scalar (Scalar.int 1))] =
      Except.error "b should be provided when c is 1" :=
  ⟨by
    have h := ((C6_conditional_forbidden_required ["a"] "c" (Val.scalar (Scalar.int 1))
      (fun x y => x == y) "is"
      [("c", Val.scalar (Scalar.int 1)), ("a", Val.scalar (Scalar.bool false))]).2.2
      (Val.scalar (Scalar.int 1)) (by decide) (by decide)).2.2.1 "a" (by decide)
    exact h.trans (by decide),
   by
    have h := ((C6_conditional_forbidden_required ["b"] "c" (Val.scalar (Scalar.int 1))
      (fun x y => x == y) "is"
      [("c", Val.scalar (Scalar.int 1))]).2.2
      (Val.scalar (Scalar.int 1)) (by decide) (by decide)).2.2.2 "b" (by decide)
    exact h.trans (by decide)⟩

/-- Claim C9: the conditional guard returns the mapping it was handed:
unchanged when the condition field is absent or the comparison fails;
when the condition holds the wrapped validator runs, its raised error
propagates, and on success the guard returns the shared mapping in its
post-call (possibly mutated) state while the wrapped validator's return
value is discarded. -/
theorem C9_conditional_guard_frame (rv : Values → Except String (Values × Values))
    (cf : String) (cv : Val) (cmp : Val → Val → Bool) (values : Values) :
    (pyGet values cf = none →
      validate_conditionally rv cf cv cmp values = Except.ok values)
  ∧ (∀ v, pyGet values cf = some v → cmp v cv = false →
      validate_conditionally rv cf cv cmp values = Except.ok values)
  ∧ (∀ v mutated returned, pyGet values cf = some v → cmp v cv = true →
      rv values = Except.ok (mutated, returned) →
      validate_conditionally rv cf cv cmp values = Except.ok mutated)
  ∧ (∀ v e, pyGet values cf = some v → cmp v cv = true →
      rv values = Except.error e →
      validate_conditionally rv cf cv cmp values = Except.error e) := by
  refine ⟨?_, ?_, ?_, ?_⟩
  · intro h; unfold validate_conditionally; rw [h]
  · intro v hv hcmp; unfold validate_conditionally; rw [hv]; simp [hcmp]
  · intro v m r hv hcmp hrv; unfold validate_conditionally; rw [hv]; simp [hcmp, hrv]
  · intro v e hv hcmp hrv; unfold validate_conditionally; rw [hv]; simp [hcmp, hrv]

/-- Witness for C9: a wrapped validator that both mutates the mapping and
returns a different mapping; the guard surfaces the mutation and drops
the return value. -/
theorem C9_conditional_guard_frame_witness :
    validate_conditionally
      (fun vs => Except.ok (pySet vs "a" (Val.scalar (Scalar.int 1)), []))
      "c" (Val.scalar (Scalar.int 1)) (fun x y => x == y)
      [("c", Val.scalar (Scalar.int 1))] =
    Except.ok [("c", Val.scalar (Scalar.int 1)), ("a", Val.scalar (Scalar.int 1))] :=
  ((C9_conditional_guard_frame
      (fun vs => Except.ok (pySet vs "a" (Val.scalar (Scalar.int 1)), []))
      "c" (Val.scalar (Scalar.int 1)) (fun x y => x == y)
      [("c", Val.scalar (Scalar.int 1))]).2.2.1
    (Val.scalar (Scalar.int 1)) _ [] (by decide) (by decide) rfl).trans (by decide)

/-! ### Location-rule helper lemmas -/

theorem key_node_default : pyLower defaultLocFields.node_id = "nodeid" := rfl

theorem key_branch_default : pyLower defaultLocFields.branch_id = "branchid" := rfl

theorem key_chainage_default : pyLower defaultLocFields.chainage = "chainage" := rfl

theorem key_x_default : pyLower defaultLocFields.x_coordinates = "xcoordinates" := rfl

theorem key_y_default : pyLower defaultLocFields.y_coordinates = "ycoordinates" := rfl

theorem key_num_default : pyLower defaultLocFields.num_coordinates = "numcoordinates" := rfl

theorem key_loctype_default : pyLower defaultLocFields.location_type = "locationtype" := rfl

theorem keyLit_x : pyLower "xCoordinates" = "xcoordinates" := rfl

theorem keyLit_y : pyLower "yCoordinates" = "ycoordinates" := rfl

theorem keyLit_num : pyLower "numCoordinates" = "numcoordinates" := rfl

theorem keyLit_loctype : pyLower "locationType" = "locationtype" := rfl

/-- The presence flags under the default field names, written with the
lower-cased keys. -/
theorem loc_presence_default (values : Values) :
    loc_presence defaultLocFields values =
      ⟨!(str_is_empty_or_none (pyGet values "nodeid")),
       !(str_is_empty_or_none (pyGet values "branchid")),
       (pyGet values "chainage").isSome,
       (pyGet values "xcoordinates").isSome,
       (pyGet values "ycoordinates").isSome,
       (pyGet values "numcoordinates").isSome⟩ := rfl

/-- A mapping in node form reduces the location rule to the
location-type check. -/
theorem node_form_reduces (cfg : LocationValidationConfiguration) (values : Values)
    (hvn : cfg.validate_node = true)
    (hnode : str_is_empty_or_none (pyGet values "nodeid") = false)
    (hbranch : str_is_empty_or_none (pyGet values "branchid") = true)
    (hch : pyGet values "chainage" = none)
    (hx : pyGet values "xcoordinates" = none)
    (hy : pyGet values "ycoordinates" = none)
    (hnc : pyGet values "numcoordinates" = none) :
    validate_location_specification cfg defaultLocFields values =
      validate_location_type defaultLocFields LocationType_oned values := by
  have hp : loc_presence defaultLocFields values = ⟨true, false, false, false, false, false⟩ := by
    simp [loc_presence_default, hnode, hbranch, hch, hx, hy, hnc]
  unfold validate_location_specification
  simp [hp, is_valid_node_specification, hvn]

/-- A mapping in branch form reduces the location rule to the
location-type check. -/
theorem branch_form_reduces (cfg : LocationValidationConfiguration) (values : Values)
    (hvb : cfg.validate_branch = true)
    (hnode : str_is_empty_or_none (pyGet values "nodeid") = true)
    (hbranch : str_is_empty_or_none (pyGet values "branchid") = false)
    (hch : (pyGet values "chainage").isSome = true)
    (hx : pyGet values "xcoordinates" = none)
    (hy : pyGet values "ycoordinates" = none)
    (hnc : pyGet values "numcoordinates" = none) :
    validate_location_specification cfg defaultLocFields values =
      validate_location_type defaultLocFields LocationType_oned values := by
  have hp : loc_presence defaultLocFields values = ⟨false, true, true, false, false, false⟩ := by
    simp [loc_presence_default, hnode, hbranch, hch, hx, hy, hnc]
  unfold validate_location_specification
  simp [hp, is_valid_node_specification, is_valid_branch_specification, hvb]

/-- A mapping in the count-free coordinate form, under a configuration
with the count check disabled, reduces the location rule to the
coordinate check. -/
theorem coords_form_reduces (cfg : LocationValidationConfiguration) (values : Values)
    (hvc : cfg.validate_coordinates = true) (hvn : cfg.validate_num_coordinates = false)
    (hnode : str_is_empty_or_none (pyGet values "nodeid") = true)
    (hbranch : str_is_empty_or_none (pyGet values "branchid") = true)
    (hch : pyGet values "chainage" = none)
    (hx : (pyGet values "xcoordinates").isSome = true)
    (hy : (pyGet values "ycoordinates").isSome = true)
    (hnc : pyGet values "numcoordinates" = none) :
    validate_location_specification cfg defaultLocFields values =
      validate_coordinates cfg defaultLocFields values := by
  have hp : loc_presence defaultLocFields values = ⟨false, false, false, true, true, false⟩ := by
    simp [loc_presence_default, hnode, hbranch, hch, hx, hy, hnc]
  unfold validate_location_specification
  simp [hp, is_valid_node_specification, is_valid_branch_specification,
    is_valid_coordinates_specification, is_valid_coordinates_with_num_coordinates_specification,
    hvc, hvn]

/-- A mapping in the coordinate-with-count form, under a configuration
with the count check enabled, reduces the location rule to the
coordinate-with-count check. -/
theorem coords_withnum_reduces (cfg : LocationValidationConfiguration) (values : Values)
    (hvc : cfg.validate_coordinates = true) (hvn : cfg.validate_num_coordinates = true)
    (hnode : str_is_empty_or_none (pyGet values "nodeid") = true)
    (hbranch : str_is_empty_or_none (pyGet values "branchid") = true)
    (hch : pyGet values "chainage" = none)
    (hx : (pyGet values "xcoordinates").isSome = true)
    (hy : (pyGet values "ycoordinates").isSome = true)
    (hnc : (pyGet values "numcoordinates").isSome = true) :
    validate_location_specification cfg defaultLocFields values =
      validate_coordinates_with_num_coordinates cfg defaultLocFields values := by
  have hp : loc_presence defaultLocFields values = ⟨false, false, false, true, true, true⟩ := by
    simp [loc_presence_default, hnode, hbranch, hch, hx, hy, hnc]
  unfold validate_location_specification
  simp [hp, is_valid_node_specification, is_valid_branch_specification,
    is_valid_coordinates_with_num_coordinates_specification, hvc, hvn]

/-- Case analysis of `validate_coordinates` under the default field
names, for list-valued coordinate fields. -/
theorem validate_coordinates_default_cases (cfg : LocationValidationConfiguration)
    (values : Values) (xs ys : List Scalar)
    (hx : pyGet values "xcoordinates" = some (Val.list xs))
    (hy : pyGet values "ycoordinates" = some (Val.list ys)) :
    (xs.length = ys.length → ¬((xs.length : Int) < cfg.minimum_num_coordinates) →
      validate_coordinates cfg defaultLocFields values = Except.ok values)
  ∧ (xs.length ≠ ys.length →
      validate_coordinates cfg defaultLocFields values =
        Except.error "xCoordinates and yCoordinates should have an equal amount of coordinates")
  ∧ (xs.length = ys.length → (xs.length : Int) < cfg.minimum_num_coordinates →
      validate_coordinates cfg defaultLocFields values =
        Except.error ("xCoordinates and yCoordinates should have at least "
          ++ toString cfg.minimum_num_coordinates ++ " coordinate(s)")) := by
  refine ⟨?_, ?_, ?_⟩
  · intro h1 h2
    have hbne : (xs.length != ys.length) = false := by simp [h1]
    simp [validate_coordinates, get_length, key_x_default, key_y_default, hx, hy, to_list,
      hbne, validate_minimum_num_coordinates, h2]
  · intro h1
    have hbne : (xs.length != ys.length) = true := by simp [h1]
    have hmsg : ("xCoordinates" : String) ++ " and " ++ "yCoordinates"
        ++ " should have an equal amount of coordinates" =
        "xCoordinates and yCoordinates should have an equal amount of coordinates" := rfl
    simp [validate_coordinates, get_length, keyLit_x, keyLit_y, hx, hy, to_list,
      hbne, h1, defaultLocFields, hmsg]
  · intro h1 h2
    have hbne : (xs.length != ys.length) = false := by simp [h1]
    have h2y : (ys.length : Int) < cfg.minimum_num_coordinates := by omega
    have hmsg : ("xCoordinates" : String) ++ " and " ++ "yCoordinates"
        ++ " should have at least " = "xCoordinates and yCoordinates should have at least " := rfl
    simp [validate_coordinates, get_length, keyLit_x, keyLit_y, hx, hy, to_list,
      hbne, h1, validate_minimum_num_coordinates, h2y, defaultLocFields, hmsg]

/-- Case analysis of `validate_location_type` under the default field
names and the implied 1D tag. -/
theorem loctype_default_cases (values : Values) :
    (str_is_empty_or_none (pyGet values "locationtype") = true →
      validate_location_type defaultLocFields LocationType_oned values =
        Except.ok (pySet values "locationtype" (Val.scalar (Scalar.str "1d"))))
  ∧ (∀ v, pyGet values "locationtype" = some v →
      str_is_empty_or_none (pyGet values "locationtype") = false →
      ((v = Val.scalar (Scalar.str "1d") →
        validate_location_type defaultLocFields LocationType_oned values = Except.ok values)
       ∧ (v ≠ Val.scalar (Scalar.str "1d") →
        validate_location_type defaultLocFields LocationType_oned values =
          Except.error ("locationType should be 1d but was " ++ v.pyStr)))) := by
  constructor
  · intro h
    simp only [validate_location_type, key_loctype_default, h, if_true, LocationType_oned]
  · intro v hv hne
    constructor
    · intro he
      simp only [validate_location_type, key_loctype_default, hne, LocationType_oned]
      simp [hv, he]
    · intro hn
      simp only [validate_location_type, key_loctype_default, hne, LocationType_oned]
      have hmsg : ("locationType" : String) ++ " should be " ++ "1d" ++ " but was " =
          "locationType should be 1d but was " := rfl
      simp [hv, hn, defaultLocFields, keyLit_loctype, hmsg]

/-! ### The location-rule claims -/

/-- Claim C1: a mapping holding x- and y-coordinate sequences and none of
node id, branch id, chainage or the coordinate count, under a
configuration with coordinate validation enabled in its count-free form
(the spec's form 3, "count not required": `validate_coordinates` on,
`validate_num_coordinates` off) and minimum coordinate count 0,
validates exactly the node-free coordinate form: success when the two
sequences have equal length, and the equal-amount violation when they
differ. -/
theorem C1_coordinate_form (cfg : LocationValidationConfiguration) (values : Values)
    (xs ys : List Scalar)
    (hvc : cfg.validate_coordinates = true) (hvn : cfg.validate_num_coordinates = false)
    (hmin : cfg.minimum_num_coordinates = 0)
    (hx : pyGet values "xcoordinates" = some (Val.list xs))
    (hy : pyGet values "ycoordinates" = some (Val.list ys))
    (hnode : str_is_empty_or_none (pyGet values "nodeid") = true)
    (hbranch : str_is_empty_or_none (pyGet values "branchid") = true)
    (hch : pyGet values "chainage" = none)
    (hnc : pyGet values "numcoordinates" = none) :
    (xs.length = ys.length →
      validate_location_specification cfg defaultLocFields values = Except.ok values)
  ∧ (xs.length ≠ ys.length →
      validate_location_specification cfg defaultLocFields values =
        Except.error "xCoordinates and yCoordinates should have an equal amount of coordinates") := by
  have hred := coords_form_reduces cfg values hvc hvn hnode hbranch hch
    (by simp [hx]) (by simp [hy]) hnc
  have hcases := validate_coordinates_default_cases cfg values xs ys hx hy
  constructor
  · intro hlen
    rw [hred]
    exact hcases.1 hlen (by rw [hmin]; omega)
  · intro hlen
    rw [hred]
    exact hcases.2.1 hlen

/-- Witness for C1: the spec's example, equal coordinate lists of length
three validate; the mapping is returned unchanged. -/
theorem C1_coordinate_form_witness :
    validate_location_specification
      { validate_num_coordinates := false }
      defaultLocFields
      [("xcoordinates", Val.list [Scalar.int 0, Scalar.int 1, Scalar.int 2]),
       ("ycoordinates", Val.list [Scalar.int 0, Scalar.int 1, Scalar.int 2])] =
    Except.ok
      [("xcoordinates", Val.list [Scalar.int 0, Scalar.int 1, Scalar.int 2]),
       ("ycoordinates", Val.list [Scalar.int 0, Scalar.int 1, Scalar.int 2])] :=
  (C1_coordinate_form { validate_num_coordinates := false }
    [("xcoordinates", Val.list [Scalar.int 0, Scalar.int 1, Scalar.int 2]),
     ("ycoordinates", Val.list [Scalar.int 0, Scalar.int 1, Scalar.int 2])]
    [Scalar.int 0, Scalar.int 1, Scalar.int 2] [Scalar.int 0, Scalar.int 1, Scalar.int 2]
    rfl rfl rfl rfl rfl rfl rfl rfl rfl).1 rfl

/-- Claim C2: when no enabled form's exclusivity predicate holds, the
location rule raises the single aggregate violation joining the enabled
forms' field names with " or " followed by " should be provided"; a
disabled form contributes no hypothesis (it is never trialled) and no
entry in the message. -/
theorem C2_alternative_exhaustion (cfg : LocationValidationConfiguration)
    (fields : LocationValidationFieldNames) (values : Values)
    (hn : cfg.validate_node = true →
      is_valid_node_specification (loc_presence fields values) = false)
    (hb : cfg.validate_branch = true →
      is_valid_branch_specification (loc_presence fields values) = false)
    (hcn : cfg.validate_coordinates = true → cfg.validate_num_coordinates = true →
      is_valid_coordinates_with_num_coordinates_specification (loc_presence fields values)
        = false)
    (hc : cfg.validate_coordinates = true → cfg.validate_num_coordinates = false →
      is_valid_coordinates_specification (loc_presence fields values) = false) :
    validate_location_specification cfg fields values =
      Except.error (String.intercalate " or " (location_error_parts cfg fields)
        ++ " should be provided") := by
  unfold validate_location_specification
  cases hvn : cfg.validate_node <;> cases hvb : cfg.validate_branch <;>
    cases hvc : cfg.validate_coordinates <;> cases hvnum : cfg.validate_num_coordinates <;>
      simp_all

/-- Witness for C2: the spec's example, a node id together with a branch
id, under the default configuration: the aggregate message lists all
three enabled alternatives. -/
theorem C2_alternative_exhaustion_witness :
    validate_location_specification {} defaultLocFields
      [("nodeid", Val.scalar (Scalar.str "N1")),
       ("branchid", Val.scalar (Scalar.str "B1"))] =
    Except.error
      "nodeId or branchId and chainage or xCoordinates, yCoordinates and numCoordinates should be provided" :=
  (C2_alternative_exhaustion {} defaultLocFields
    [("nodeid", Val.scalar (Scalar.str "N1")),
     ("branchid", Val.scalar (Scalar.str "B1"))]
    (by decide) (by decide) (by decide) (by decide)).trans (by decide)

/-- Claim C3: a mapping in exactly the node form (under a configuration
with node validation enabled) or exactly the branch form (branch
validation enabled) validates, and the location-type tag is resolved:
an absent or empty tag is set to the implied 1D type, a tag equal to it
is accepted, and a differing tag raises the violation naming the
expected and actual values. -/
theorem C3_node_branch_location_type (cfg : LocationValidationConfiguration)
    (values : Values)
    (hform :
      (cfg.validate_node = true
        ∧ str_is_empty_or_none (pyGet values "nodeid") = false
        ∧ str_is_empty_or_none (pyGet values "branchid") = true
        ∧ pyGet values "chainage" = none
        ∧ pyGet values "xcoordinates" = none
        ∧ pyGet values "ycoordinates" = none
        ∧ pyGet values "numcoordinates" = none)
      ∨ (cfg.validate_branch = true
        ∧ str_is_empty_or_none (pyGet values "branchid") = false
        ∧ (pyGet values "chainage").isSome = true
        ∧ str_is_empty_or_none (pyGet values "nodeid") = true
        ∧ pyGet values "xcoordinates" = none
        ∧ pyGet values "ycoordinates" = none
        ∧ pyGet values "numcoordinates" = none)) :
    (str_is_empty_or_none (pyGet values "locationtype") = true →
      validate_location_specification cfg defaultLocFields values =
        Except.ok (pySet values "locationtype" (Val.scalar (Scalar.str "1d"))))
  ∧ (∀ v, pyGet values "locationtype" = some v →
      str_is_empty_or_none (pyGet values "locationtype") = false →
      ((v = Val.scalar (Scalar.str "1d") →
        validate_location_specification cfg defaultLocFields values = Except.ok values)
       ∧ (v ≠ Val.scalar (Scalar.str "1d") →
        validate_location_specification cfg defaultLocFields values =
          Except.error ("locationType should be 1d but was " ++ v.pyStr)))) := by
  have hred : validate_location_specification cfg defaultLocFields values =
      validate_location_type defaultLocFields LocationType_oned values := by
    rcases hform with ⟨h1, h2, h3, h4, h5, h6, h7⟩ | ⟨h1, h2, h3, h4, h5, h6, h7⟩
    · exact node_form_reduces cfg values h1 h2 h3 h4 h5 h6 h7
    · exact branch_form_reduces cfg values h1 h4 h2 h3 h5 h6 h7
  constructor
  · intro h
    rw [hred]
    exact (loctype_default_cases values).1 h
  · intro v hv hne
    have hc := (loctype_default_cases values).2 v hv hne
    exact ⟨fun he => by rw [hred]; exact hc.1 he,
           fun hn => by rw [hred]; exact hc.2 hn⟩

/-- Witness for C3: the spec's two examples: a bare node id validates and
sets `locationType` to "1d"; a branch id with chainage likewise; a node
id with a conflicting tag raises the mismatch violation. -/
theorem C3_node_branch_location_type_witness :
    validate_location_specification {} defaultLocFields
      [("nodeid", Val.scalar (Scalar.str "N1"))] =
      Except.ok [("nodeid", Val.scalar (Scalar.str "N1")),
                 ("locationtype", Val.scalar (Scalar.str "1d"))]
  ∧ validate_location_specification {} defaultLocFields
      [("branchid", Val.scalar (Scalar.str "B1")),
       ("chainage", Val.scalar (Scalar.int 10))] =
      Except.ok [("branchid", Val.scalar (Scalar.str "B1")),
                 ("chainage", Val.scalar (Scalar.int 10)),
                 ("locationtype", Val.scalar (Scalar.str "1d"))]
  ∧ validate_location_specification {} defaultLocFields
      [("nodeid", Val.scalar (Scalar.str "N1")),
       ("locationtype", Val.scalar (Scalar.str "2d"))] =
      Except.error "locationType should be 1d but was 2d" :=
  ⟨((C3_node_branch_location_type {} [("nodeid", Val.scalar (Scalar.str "N1"))]
      (Or.inl ⟨rfl, rfl, rfl, rfl, rfl, rfl, rfl⟩)).1 rfl).trans (by decide),
   ((C3_node_branch_location_type {}
      [("branchid", Val.scalar (Scalar.str "B1")), ("chainage", Val.scalar (Scalar.int 10))]
      (Or.inr ⟨rfl, rfl, rfl, rfl, rfl, rfl, rfl⟩)).1 rfl).trans (by decide),
   (((C3_node_branch_location_type {}
      [("nodeid", Val.scalar (Scalar.str "N1")),
       ("locationtype", Val.scalar (Scalar.str "2d"))]
      (Or.inl ⟨rfl, rfl, rfl, rfl, rfl, rfl, rfl⟩)).2
      (Val.scalar (Scalar.str "2d")) rfl rfl).2 (by decide)).trans (by decide)⟩

/-- Claim C4: a mapping holding x- and y-coordinate sequences and a
coordinate count and none of node id, branch id or chainage, under a
configuration with the coordinate-with-count form enabled, validates
exactly when the count equals both sequence lengths and is at least the
configured minimum; a count/length mismatch raises the violation naming
the count field, and a count below the minimum raises the violation
stating the minimum. -/
theorem C4_coordinate_with_count (cfg : LocationValidationConfiguration)
    (values : Values) (xs ys : List Scalar) (n : Int)
    (hvc : cfg.validate_coordinates = true) (hvn : cfg.validate_num_coordinates = true)
    (hx : pyGet values "xcoordinates" = some (Val.list xs))
    (hy : pyGet values "ycoordinates" = some (Val.list ys))
    (hnum : pyGet values "numcoordinates" = some (Val.scalar (Scalar.int n)))
    (hnode : str_is_empty_or_none (pyGet values "nodeid") = true)
    (hbranch : str_is_empty_or_none (pyGet values "branchid") = true)
    (hch : pyGet values "chainage" = none) :
    (validate_location_specification cfg defaultLocFields values = Except.ok values ↔
      (n = (xs.length : Int) ∧ n = (ys.length : Int) ∧ cfg.minimum_num_coordinates ≤ n))
  ∧ (¬(n = (xs.length : Int) ∧ n = (ys.length : Int)) →
      validate_location_specification cfg defaultLocFields values =
        Except.error "numCoordinates should be equal to the amount of xCoordinates and yCoordinates")
  ∧ (n = (xs.length : Int) → n = (ys.length : Int) → n < cfg.minimum_num_coordinates →
      validate_location_specification cfg defaultLocFields values =
        Except.error ("xCoordinates and yCoordinates should have at least "
          ++ toString cfg.minimum_num_coordinates ++ " coordinate(s)")) := by
  have hred := coords_withnum_reduces cfg values hvc hvn hnode hbranch hch
    (by simp [hx]) (by simp [hy]) (by simp [hnum])
  rw [hred]
  refine ⟨?_, ?_, ?_⟩
  · constructor
    · intro hok
      by_cases h1 : n = (xs.length : Int)
      · by_cases h2 : xs.length = ys.length
        · by_cases h3 : (xs.length : Int) < cfg.minimum_num_coordinates
          · exfalso
            have h3y : (ys.length : Int) < cfg.minimum_num_coordinates := by omega
            rw [validate_coordinates_with_num_coordinates] at hok
            simp [get_length, key_x_default, key_y_default, key_num_default, keyLit_x, keyLit_y, keyLit_num, hx, hy, hnum,
              to_list, pyEqInt, h1, h2, validate_minimum_num_coordinates, h3y] at hok
          · exact ⟨h1, by omega, by omega⟩
        · exfalso
          rw [validate_coordinates_with_num_coordinates] at hok
          simp [get_length, key_x_default, key_y_default, key_num_default, keyLit_x, keyLit_y, keyLit_num, hx, hy, hnum,
            to_list, pyEqInt, h2] at hok
      · exfalso
        rw [validate_coordinates_with_num_coordinates] at hok
        simp [get_length, key_x_default, key_y_default, key_num_default, keyLit_x, keyLit_y, keyLit_num, hx, hy, hnum,
          to_list, pyEqInt, h1] at hok
    · rintro ⟨h1, h2, h3⟩
      have h2' : xs.length = ys.length := by omega
      have h3' : ¬((ys.length : Int) < cfg.minimum_num_coordinates) := by omega
      simp [validate_coordinates_with_num_coordinates, get_length, key_x_default,
        key_y_default, key_num_default, keyLit_x, keyLit_y, keyLit_num, hx, hy, hnum, to_list, pyEqInt, h1, h2',
        validate_minimum_num_coordinates, h3']
  · intro hne
    have hg : ¬(n = (xs.length : Int) ∧ xs.length = ys.length) := by
      intro ⟨h1, h2⟩
      exact hne ⟨h1, by omega⟩
    have hmsgN : ("numCoordinates" : String) ++ " should be equal to the amount of "
        ++ "xCoordinates" ++ " and " ++ "yCoordinates" =
        "numCoordinates should be equal to the amount of xCoordinates and yCoordinates" := rfl
    by_cases h1 : n = (xs.length : Int)
    · have h2 : xs.length ≠ ys.length := fun h => hg ⟨h1, h⟩
      simp [validate_coordinates_with_num_coordinates, get_length, key_x_default,
        key_y_default, key_num_default, keyLit_x, keyLit_y, keyLit_num, hx, hy, hnum, to_list, pyEqInt, h1, h2,
        defaultLocFields, hmsgN]
    · simp [validate_coordinates_with_num_coordinates, get_length, key_x_default,
        key_y_default, key_num_default, keyLit_x, keyLit_y, keyLit_num, hx, hy, hnum, to_list, pyEqInt, h1,
        defaultLocFields, hmsgN]
  · intro h1 h2 h3
    have h2' : xs.length = ys.length := by omega
    have h3' : (ys.length : Int) < cfg.minimum_num_coordinates := by omega
    have hmsg : ("xCoordinates" : String) ++ " and " ++ "yCoordinates"
        ++ " should have at least " = "xCoordinates and yCoordinates should have at least " := rfl
    simp [validate_coordinates_with_num_coordinates, get_length, key_x_default,
      key_y_default, key_num_default, keyLit_x, keyLit_y, keyLit_num, hx, hy, hnum, to_list, pyEqInt, h1, h2',
      validate_minimum_num_coordinates, h3', defaultLocFields, hmsg]

/-- Witness for C4: the spec's example: two coordinates with count 2 but
minimum 3 raise the below-minimum violation. -/
theorem C4_coordinate_with_count_witness :
    validate_location_specification { minimum_num_coordinates := 3 } defaultLocFields
      [("xcoordinates", Val.list [Scalar.int 0, Scalar.int 1]),
       ("ycoordinates", Val.list [Scalar.int 0, Scalar.int 1]),
       ("numcoordinates", Val.scalar (Scalar.int 2))] =
    Except.error "xCoordinates and yCoordinates should have at least 3 coordinate(s)" :=
  ((C4_coordinate_with_count { minimum_num_coordinates := 3 }
    [("xcoordinates", Val.list [Scalar.int 0, Scalar.int 1]),
     ("ycoordinates", Val.list [Scalar.int 0, Scalar.int 1]),
     ("numcoordinates", Val.scalar (Scalar.int 2))]
    [Scalar.int 0, Scalar.int 1] [Scalar.int 0, Scalar.int 1] 2
    rfl rfl rfl rfl rfl rfl rfl rfl).2.2 rfl rfl (by decide)).trans (by decide)

/-- Claim C10: the location rule's presence semantics at the interface:
a node id holding the empty string does not count as given, so a mapping
pairing it with valid coordinate fields is accepted as the node-free
coordinate form; and an empty-string location-type tag is overwritten
with the implied 1D type instead of being reported as a mismatch. -/
theorem C10_presence_interface :
    (∀ (cfg : LocationValidationConfiguration) (values : Values) (xs ys : List Scalar),
      cfg.validate_coordinates = true → cfg.validate_num_coordinates = false →
      cfg.minimum_num_coordinates = 0 →
      pyGet values "nodeid" = some (Val.scalar (Scalar.str "")) →
      str_is_empty_or_none (pyGet values "branchid") = true →
      pyGet values "chainage" = none →
      pyGet values "numcoordinates" = none →
      pyGet values "xcoordinates" = some (Val.list xs) →
      pyGet values "ycoordinates" = some (Val.list ys) →
      xs.length = ys.length →
      validate_location_specification cfg defaultLocFields values = Except.ok values)
  ∧ (∀ (cfg : LocationValidationConfiguration) (values : Values),
      cfg.validate_node = true →
      str_is_empty_or_none (pyGet values "nodeid") = false →
      str_is_empty_or_none (pyGet values "branchid") = true →
      pyGet values "chainage" = none →
      pyGet values "xcoordinates" = none →
      pyGet values "ycoordinates" = none →
      pyGet values "numcoordinates" = none →
      pyGet values "locationtype" = some (Val.scalar (Scalar.str "")) →
      validate_location_specification cfg defaultLocFields values =
        Except.ok (pySet values "locationtype" (Val.scalar (Scalar.str "1d")))) := by
  constructor
  · intro cfg values xs ys hvc hvn hmin hnode0 hbranch hch hnc hx hy hlen
    have hnode : str_is_empty_or_none (pyGet values "nodeid") = true := by
      rw [hnode0]; rfl
    have hred := coords_form_reduces cfg values hvc hvn hnode hbranch hch
      (by simp [hx]) (by simp [hy]) hnc
    rw [hred]
    exact (validate_coordinates_default_cases cfg values xs ys hx hy).1 hlen
      (by rw [hmin]; omega)
  · intro cfg values hvn hnode hbranch hch hx hy hnc htag
    have hred := node_form_reduces cfg values hvn hnode hbranch hch hx hy hnc
    rw [hred]
    exact (loctype_default_cases values).1 (by rw [htag]; rfl)

/-- Witness for C10: an empty-string node id alongside equal coordinate
lists is accepted as the coordinate form, and an empty-string tag on a
node form is overwritten with "1d". -/
theorem C10_presence_interface_witness :
    validate_location_specification { validate_num_coordinates := false } defaultLocFields
      [("nodeid", Val.scalar (Scalar.str "")),
       ("xcoordinates", Val.list [Scalar.int 0]),
       ("ycoordinates", Val.list [Scalar.int 7])] =
      Except.ok
        [("nodeid", Val.scalar (Scalar.str "")),
         ("xcoordinates", Val.list [Scalar.int 0]),
         ("ycoordinates", Val.list [Scalar.int 7])]
  ∧ validate_location_specification {} defaultLocFields
      [("nodeid", Val.scalar (Scalar.str "N1")),
       ("locationtype", Val.scalar (Scalar.str ""))] =
      Except.ok
        [("nodeid", Val.scalar (Scalar.str "N1")),
         ("locationtype", Val.scalar (Scalar.str "1d"))] :=
  ⟨C10_presence_interface.1 { validate_num_coordinates := false }
     [("nodeid", Val.scalar (Scalar.str "")),
      ("xcoordinates", Val.list [Scalar.int 0]),
      ("ycoordinates", Val.list [Scalar.int 7])]
     [Scalar.int 0] [Scalar.int 7] rfl rfl rfl rfl rfl rfl rfl rfl rfl rfl,
   (C10_presence_interface.2 {}
     [("nodeid", Val.scalar (Scalar.str "N1")),
      ("locationtype", Val.scalar (Scalar.str ""))]
     rfl rfl rfl rfl rfl rfl rfl rfl).trans (by decide)⟩

/-! ### The enum-normalizer claim -/

/-- Counterexample to claim C8 as stated: over the enumeration with the
two members "1D" and "1d" (two distinct string values, hence two
canonical Python `Enum` members), normalizing the already-canonical
member "1d" returns "1D", not the member itself. -/
theorem C8_enum_normalization_counterexample :
    "1d" ∈ ["1D", "1d"] ∧ get_enum ["1D", "1d"] "1d" = "1D" ∧ "1D" ≠ "1d" := by
  refine ⟨by decide, by decide, by decide⟩

/-- Claim C8 (amended): for an enumeration whose members are pairwise
distinct case-insensitively, the normalizer returns the member matching
the input case-insensitively when one exists and the input unchanged
otherwise; it fixes every canonical member, is idempotent, and maps a
sequence elementwise. -/
theorem C8_enum_normalization (E : List String) (v : String)
    (hE : (E.map pyLower).Nodup) :
    (∀ m ∈ E, get_enum E m = m)
  ∧ (∀ e ∈ E, pyLower e = pyLower v → get_enum E v = e)
  ∧ ((∀ e ∈ E, pyLower e ≠ pyLower v) → get_enum E v = v)
  ∧ (get_enum E (get_enum E v) = get_enum E v)
  ∧ (∀ l : List Scalar,
      get_enum_each_item E (Val.list l) = Val.list (l.map (get_enum_scalar E))) := by
  refine ⟨?_, ?_, ?_, ?_, fun l => rfl⟩
  · intro m hm
    unfold get_enum
    cases hf : E.find? (fun entry => pyLower entry == pyLower m) with
    | none =>
      exfalso
      have := List.find?_eq_none.mp hf m hm
      simp at this
    | some e =>
      have he : pyLower e = pyLower m := by simpa using List.find?_some hf
      exact List.inj_on_of_nodup_map hE (List.mem_of_find?_eq_some hf) hm he
  · intro e he hev
    unfold get_enum
    cases hf : E.find? (fun entry => pyLower entry == pyLower v) with
    | none =>
      exfalso
      have := List.find?_eq_none.mp hf e he
      simp [hev] at this
    | some e' =>
      have hp : pyLower e' = pyLower v := by simpa using List.find?_some hf
      exact List.inj_on_of_nodup_map hE (List.mem_of_find?_eq_some hf) he
        (by rw [hp, hev])
  · intro h
    have hf : E.find? (fun entry => pyLower entry == pyLower v) = none :=
      List.find?_eq_none.mpr (fun x hx => by simp [h x hx])
    unfold get_enum
    rw [hf]
  · cases hf : E.find? (fun entry => pyLower entry == pyLower v) with
    | none =>
      have h1 : get_enum E v = v := by unfold get_enum; rw [hf]
      rw [h1]
      exact h1
    | some e =>
      have h1 : get_enum E v = e := by unfold get_enum; rw [hf]
      have hp : pyLower e = pyLower v := by simpa using List.find?_some hf
      have hpred : (fun entry => pyLower entry == pyLower e)
          = (fun entry => pyLower entry == pyLower v) := by
        funext x; rw [hp]
      rw [h1]
      unfold get_enum
      rw [hpred, hf]

/-- Witness for C8 at a concrete enumeration: case-insensitive matching
substitutes the canonical member, and a canonical member is fixed. -/
theorem C8_enum_normalization_witness :
    get_enum ["WindSpeed", "WindDirection"] "windspeed" = "WindSpeed"
  ∧ get_enum ["WindSpeed", "WindDirection"] "WindDirection" = "WindDirection" :=
  ⟨(C8_enum_normalization ["WindSpeed", "WindDirection"] "windspeed"
      (by decide)).2.1 "WindSpeed" (by decide) (by decide),
   (C8_enum_normalization ["WindSpeed", "WindDirection"] "WindDirection"
      (by decide)).1 "WindDirection" (by decide)⟩

/-! ### The delimiter-split claim -/

theorem isPrefixOf_self_append (l t : List Char) : l.isPrefixOf (l ++ t) = true := by
  rw [List.isPrefixOf_iff_prefix]
  exact List.prefix_append l t

/-- A character list sharing no character with a non-empty `sep` contains
no occurrence of `sep`. -/
theorem findSep_not_mem {sep : List Char} (hsep : sep ≠ []) :
    ∀ {s : List Char}, (∀ c ∈ s, c ∉ sep) → findSep sep s = none := by
  intro s
  induction s with
  | nil => intro _; rfl
  | cons c cs ih =>
    intro h
    have hnp : sep.isPrefixOf (c :: cs) = false := by
      cases sep with
      | nil => exact absurd rfl hsep
      | cons a as =>
        have hc : c ∉ a :: as := h c (List.mem_cons_self c cs)
        have hne : a ≠ c := fun he => hc (he ▸ List.mem_cons_self a as)
        cases hq : (a :: as).isPrefixOf (c :: cs) with
        | false => rfl
        | true =>
          exfalso
          rw [List.isPrefixOf_iff_prefix, List.cons_prefix_cons] at hq
          exact hne hq.1
    have hrest := ih (fun x hx => h x (List.mem_cons_of_mem _ hx))
    simp only [findSep]
    rw [hnp, if_neg (by simp), hrest]

/-- The leftmost occurrence of `sep` after a prefix sharing no character
with `sep` is that very occurrence. -/
theorem findSep_append {sep : List Char} (hsep : sep ≠ []) :
    ∀ (pre : List Char), (∀ c ∈ pre, c ∉ sep) → ∀ post,
      findSep sep (pre ++ sep ++ post) = some (pre, post) := by
  intro pre
  induction pre with
  | nil =>
    intro _ post
    cases sep with
    | nil => exact absurd rfl hsep
    | cons a as =>
      show findSep (a :: as) ([] ++ (a :: as) ++ post) = some ([], post)
      rw [show ([] ++ (a :: as) ++ post : List Char) = a :: (as ++ post) from rfl]
      simp only [findSep]
      rw [show (a :: as).isPrefixOf (a :: (as ++ post)) = true from
        isPrefixOf_self_append (a :: as) post]
      rw [if_pos rfl]
      have hdrop : (a :: (as ++ post)).drop (a :: as).length = post := by
        simp [List.drop_left]
      rw [hdrop]
  | cons p ps ih =>
    intro h post
    have hc : p ∉ sep := h p (List.mem_cons_self p ps)
    have hnp : sep.isPrefixOf (p :: (ps ++ sep ++ post)) = false := by
      cases sep with
      | nil => exact absurd rfl hsep
      | cons a as =>
        have hne : a ≠ p := fun he => hc (he ▸ List.mem_cons_self a as)
        cases hq : (a :: as).isPrefixOf (p :: (ps ++ (a :: as) ++ post)) with
        | false => rfl
        | true =>
          exfalso
          rw [List.isPrefixOf_iff_prefix, List.cons_prefix_cons] at hq
          exact hne hq.1
    have hrec := ih (fun x hx => h x (List.mem_cons_of_mem _ hx)) post
    rw [show (p :: ps) ++ sep ++ post = p :: (ps ++ sep ++ post) from rfl]
    simp only [findSep]
    rw [hnp, if_neg (by simp), hrec]

/-- `pySplitAux` on a separator-free input is a single segment, whatever
the fuel. -/
theorem pySplitAux_none {sep s : List Char} (h : findSep sep s = none) :
    ∀ fuel, pySplitAux sep fuel s = [s] := by
  intro fuel
  cases fuel <;> simp [pySplitAux, h]

theorem intercalate_cons_cons (sep x y : List Char) (r : List (List Char)) :
    List.intercalate sep (x :: y :: r) = x ++ sep ++ List.intercalate sep (y :: r) := by
  simp [List.intercalate, List.intersperse_cons_cons]

/-- Splitting the interleaving of separator-character-free segments
recovers the segments, given enough fuel. -/
theorem pySplitAux_intercalate {sep : List Char} (hsep : sep ≠ []) :
    ∀ (l : List (List Char)) (fuel : Nat), (∀ x ∈ l, ∀ c ∈ x, c ∉ sep) →
      l.length ≤ fuel + 1 → l ≠ [] →
      pySplitAux sep fuel (List.intercalate sep l) = l := by
  intro l
  induction l with
  | nil => intro fuel _ _ hne; exact absurd rfl hne
  | cons x rest ih =>
    intro fuel h hlen _
    cases rest with
    | nil =>
      have hx : ∀ c ∈ x, c ∉ sep := h x (by simp)
      have hone : List.intercalate sep [x] = x := by simp [List.intercalate]
      rw [hone]
      exact pySplitAux_none (findSep_not_mem hsep hx) fuel
    | cons y r =>
      cases fuel with
      | zero => simp at hlen
      | succ f =>
        rw [intercalate_cons_cons]
        have hfind := findSep_append hsep x (h x (by simp))
          (List.intercalate sep (y :: r))
        simp only [pySplitAux, hfind]
        congr 1
        refine ih f (fun z hz => h z (List.mem_cons_of_mem _ hz)) ?_ (by simp)
        simp only [List.length_cons] at hlen ⊢
        omega

/-- For a non-empty separator, the number of interleaved segments is at
most one more than the length of the interleaving. -/
theorem intercalate_length_ge {sep : List Char} (hsep : sep ≠ []) :
    ∀ l : List (List Char), l.length ≤ (List.intercalate sep l).length + 1 := by
  intro l
  induction l with
  | nil => simp
  | cons x rest ih =>
    cases rest with
    | nil => simp [List.intercalate]
    | cons y r =>
      rw [intercalate_cons_cons]
      have hs : 1 ≤ sep.length := List.length_pos.mpr hsep
      simp only [List.length_cons, List.length_append]
      simp only [List.length_cons] at ih
      omega

theorem data_ne_nil_of_ne_empty {s : String} (h : s ≠ "") : s.data ≠ [] := by
  intro hnil
  apply h
  cases s with
  | mk data =>
    simp only at hnil
    subst hnil
    rfl

/-- Counterexample to claim C7 as stated: the singleton sequence holding
the non-empty, delimiter-free string " a" does not survive the
join/split round trip, because the normalizer strips each segment. -/
theorem C7_split_round_trip_counterexample :
    pyJoin "," [" a"] = " a"
  ∧ (" a" : String) ≠ ""
  ∧ (∀ c ∈ (" a" : String).data, c ∉ ("," : String).data)
  ∧ split "," (Val.scalar (Scalar.str (pyJoin "," [" a"]))) ≠
      Val.list ([" a"].map Scalar.str) := by
  refine ⟨rfl, by decide, by decide, by decide⟩

/-- Claim C7 (amended): the split normalizer returns every non-string
value unchanged, and for every non-empty delimiter and every sequence of
non-empty strings containing no character of the delimiter and no
leading or trailing whitespace, splitting the delimiter-join of the
sequence yields the sequence again, element for element and in order. -/
theorem C7_split_round_trip (d : String) (l : List String)
    (hd : d ≠ "")
    (hne : ∀ s ∈ l, s ≠ "")
    (hdf : ∀ s ∈ l, ∀ c ∈ s.data, c ∉ d.data)
    (hst : ∀ s ∈ l, pyStrip s.data = s.data) :
    (∀ v : Val, (∀ s, v ≠ Val.scalar (Scalar.str s)) → split d v = v)
  ∧ split d (Val.scalar (Scalar.str (pyJoin d l))) = Val.list (l.map Scalar.str) := by
  have hdd : d.data ≠ [] := data_ne_nil_of_ne_empty hd
  constructor
  · intro v hv
    match v with
    | Val.scalar (Scalar.str s) => exact absurd rfl (hv s)
    | Val.scalar (Scalar.int n) => rfl
    | Val.scalar (Scalar.bool b) => rfl
    | Val.list xs => rfl
  · cases l with
    | nil =>
      show Val.list _ = Val.list []
      simp [pyJoin, List.intercalate, pySplit, pySplitAux, findSep]
    | cons x rest =>
      have hL : ∀ xd ∈ (x :: rest).map String.data, ∀ c ∈ xd, c ∉ d.data := by
        intro xd hxd c hc
        obtain ⟨s, hs, rfl⟩ := List.mem_map.mp hxd
        exact hdf s hs c hc
      have hsplit : pySplit d.data
          (List.intercalate d.data ((x :: rest).map String.data)) =
          (x :: rest).map String.data := by
        unfold pySplit
        refine pySplitAux_intercalate hdd _ _ hL ?_ (by simp)
        have := intercalate_length_ge hdd ((x :: rest).map String.data)
        omega
      have hfil : ((x :: rest).map String.data).filter (fun i => i != []) =
          (x :: rest).map String.data := by
        rw [List.filter_eq_self]
        intro a ha
        obtain ⟨s, hs, rfl⟩ := List.mem_map.mp ha
        simpa using data_ne_nil_of_ne_empty (hne s hs)
      simp only [split]
      rw [show (pyJoin d (x :: rest)).data
            = List.intercalate d.data ((x :: rest).map String.data) from rfl]
      rw [hsplit, hfil, List.map_map]
      congr 1
      refine List.map_congr_left ?_
      intro s hs
      show Scalar.str (String.mk (pyStrip s.data)) = Scalar.str s
      rw [hst s hs]

/-- Witness for C7: a two-element sequence (one element containing an
interior blank) round-trips through join and split on ";", and an
already-split list value passes through unchanged. -/
theorem C7_split_round_trip_witness :
    split ";" (Val.scalar (Scalar.str (pyJoin ";" ["a", "b c"]))) =
      Val.list [Scalar.str "a", Scalar.str "b c"]
  ∧ split ";" (Val.list [Scalar.str "a"]) = Val.list [Scalar.str "a"] :=
  ⟨(C7_split_round_trip ";" ["a", "b c"]
      (by decide) (by decide) (by decide) (by decide)).2,
   (C7_split_round_trip ";" [] (by decide) (by decide) (by decide) (by decide)).1
     (Val.list [Scalar.str "a"]) (fun s h => Val.noConfusion h)⟩

end Hydrolib
